import Mathlib

/-!
Shallow embedding of the PollyXT-to-SCC conversion pipeline
(`pollyxt_pipelines/polly_to_scc/scc_netcdf.py`) and of the SCC response
container (`pollyxt_pipelines/scc_access/types.py`).

Times handled by the interval/calibration planner are naive Python
`datetime` values; the planner embeds them as `Nat` microsecond counts
since an arbitrary midnight-aligned epoch, under which `timedelta`
addition is plain addition and `replace` of sub-day fields is modular
arithmetic.  The record builders, which format timestamps with
`strftime`, use an explicit `DateTime` component structure instead.
-/

def usPerSecond : Nat := 1000000

def usPerMinute : Nat := 60 * usPerSecond

def usPerHour : Nat := 60 * usPerMinute

def usPerDay : Nat := 24 * usPerHour

/-- Embedding of `t.replace(microsecond=0, second=0, minute=0)`: truncate a
naive datetime to the top of its hour (scc_netcdf.py line 320). -/
def truncHour (t : Nat) : Nat := t / usPerHour * usPerHour

/-- Start of the window emitted for cursor `c` in the loop of
`convert_pollyxt_file` (scc_netcdf.py lines 317-331): the cursor itself,
truncated to the hour first when `should_round` is set. -/
def windowStart (shouldRound : Bool) (c : Nat) : Nat :=
  if shouldRound then truncHour c else c

/-- Cursor value at the next iteration of the loop: the end of the window
just emitted (`interval_start = interval_end`, scc_netcdf.py line 331). -/
def nextCursor (shouldRound : Bool) (interval c : Nat) : Nat :=
  windowStart shouldRound c + interval

/-- The window loop of `convert_pollyxt_file` (scc_netcdf.py lines
316-331): starting at `mstart`, while the cursor is below `mend`,
optionally round the cursor down to the hour, emit the window
`[cursor, cursor + interval)` and continue from its end.  The Python loop
can fail to terminate; `fuel` bounds the number of iterations and `none`
reports that the bound was hit while the loop guard still held. -/
def planWindows (shouldRound : Bool) (interval : Nat) :
    Nat → Nat → Nat → Option (List (Nat × Nat))
  | mstart, mend, 0 => if mstart < mend then none else some []
  | mstart, mend, fuel + 1 =>
    if mstart < mend then
      (planWindows shouldRound interval
          (windowStart shouldRound mstart + interval) mend fuel).map
        (fun ws =>
          (windowStart shouldRound mstart,
           windowStart shouldRound mstart + interval) :: ws)
    else some []

/-- Embedding of `str.split(sep)` for a one-character separator, on
explicit character lists. -/
def splitChar (sep : Char) : List Char → List (List Char)
  | [] => [[]]
  | c :: rest =>
    if c = sep then [] :: splitChar sep rest
    else
      match splitChar sep rest with
      | [] => [[c]]
      | g :: gs => (c :: g) :: gs

/-- Embedding of `int(x)` on a decimal digit string. -/
def parseNat (l : List Char) : Nat :=
  l.foldl (fun acc c => acc * 10 + (c.toNat - 48)) 0

/-- Embedding of `[int(x) for x in part.split(':')]`
(scc_netcdf.py lines 35-36). -/
def parseHM (l : List Char) : Nat × Nat :=
  match splitChar ':' l with
  | [h, m] => (parseNat h, parseNat m)
  | _ => (0, 0)

/-- Embedding of `period.split('-')` plus the per-part `HH:MM` parse of
`calibration_to_datetime` (scc_netcdf.py lines 34-36). -/
def parsePeriod (s : String) : (Nat × Nat) × (Nat × Nat) :=
  match splitChar '-' s.data with
  | [a, b] => (parseHM a, parseHM b)
  | _ => ((0, 0), (0, 0))

/-- The constant `CALIBRATION_PERIODS` (scc_netcdf.py line 24). -/
def CALIBRATION_PERIODS : List String :=
  ["02:31-02:41", "17:31-17:41", "21:31-21:41"]

/-- Embedding of `calibration_to_datetime` (scc_netcdf.py lines 27-41) on
the microsecond timeline: `base.replace(hour=0, minute=0, second=0)`
zeroes the hour, minute and second fields but keeps the microsecond
field, so the anchor is `base / usPerDay * usPerDay + base % usPerSecond`;
the parsed `HH:MM` offsets of the period are then added to the anchor as
`timedelta(hours=..., minutes=...)`. -/
def calibration_to_datetime (base : Nat) (period : String) : Nat × Nat :=
  let anchor := base / usPerDay * usPerDay + base % usPerSecond
  let p := parsePeriod period
  (anchor + p.1.1 * usPerHour + p.1.2 * usPerMinute,
   anchor + p.2.1 * usPerHour + p.2.2 * usPerMinute)

/-- One `yield` of the generator `convert_pollyxt_file`: either a standard
record for an interval window or a calibration record for a calibration
period.  Only the data the sequencing claims refer to is recorded: the
window, and for calibration records the wavelength value passed to the
builder. -/
inductive Emit where
  | std (window : Nat × Nat)
  | cal (window : Nat × Nat) (wavelength : Int)
deriving DecidableEq

/-- Window start of an emitted record (`interval_start` resp. `start` in
the yield statements, scc_netcdf.py lines 328 and 347). -/
def emitStart : Emit → Nat
  | .std w => w.1
  | .cal w _ => w.1

/-- Calibration part of `convert_pollyxt_file` (scc_netcdf.py lines
337-347): for each fixed period in list order, build one calibration
record with wavelength 532 exactly when the period lies strictly inside
the measurement span (`start > measurement_start and
end < measurement_end`). -/
def calibEmits (mstart mend : Nat) : List Emit :=
  CALIBRATION_PERIODS.filterMap fun period =>
    let se := calibration_to_datetime mstart period
    if mstart < se.1 ∧ se.2 < mend then some (.cal se 532) else none

/-- Embedding of the generator `convert_pollyxt_file` (scc_netcdf.py lines
287-347): all standard-window records in loop order, then, when
`calibration` is set, the calibration records. -/
def convert_pollyxt_file (shouldRound calibration : Bool)
    (interval mstart mend fuel : Nat) : Option (List Emit) :=
  (planWindows shouldRound interval mstart mend fuel).map fun ws =>
    ws.map Emit.std ++ if calibration then calibEmits mstart mend else []

/-- Components of a naive Python `datetime`. -/
structure DateTime where
  year : Nat
  month : Nat
  day : Nat
  hour : Nat
  minute : Nat
  second : Nat
  microsecond : Nat
deriving DecidableEq

/-- Python `datetime` strict comparison: lexicographic on the components
from year down to microsecond. -/
def DateTime.ltb (a b : DateTime) : Bool :=
  if a.year ≠ b.year then decide (a.year < b.year)
  else if a.month ≠ b.month then decide (a.month < b.month)
  else if a.day ≠ b.day then decide (a.day < b.day)
  else if a.hour ≠ b.hour then decide (a.hour < b.hour)
  else if a.minute ≠ b.minute then decide (a.minute < b.minute)
  else if a.second ≠ b.second then decide (a.second < b.second)
  else decide (a.microsecond < b.microsecond)

/-- Embedding of `d.replace(hour=h, minute=m)`: every other field, the
seconds and microseconds included, is unchanged (scc_netcdf.py line 92). -/
def DateTime.replaceHM (d : DateTime) (h m : Nat) : DateTime :=
  { d with hour := h, minute := m }

/-- Decimal digit character. -/
def digitChar : Nat → Char
  | 0 => '0'
  | 1 => '1'
  | 2 => '2'
  | 3 => '3'
  | 4 => '4'
  | 5 => '5'
  | 6 => '6'
  | 7 => '7'
  | 8 => '8'
  | _ => '9'

/-- Two-digit zero-padded decimal, as `strftime` prints `%m`, `%d`, `%H`,
`%M`, `%S` for in-range values. -/
def pad2 (n : Nat) : List Char := [digitChar (n / 10 % 10), digitChar (n % 10)]

/-- Four-digit zero-padded decimal, as `strftime` prints `%Y` for years
below 10000. -/
def pad4 (n : Nat) : List Char :=
  [digitChar (n / 1000 % 10), digitChar (n / 100 % 10),
   digitChar (n / 10 % 10), digitChar (n % 10)]

/-- Embedding of `strftime('%Y%m%d')`. -/
def fmtYMD (d : DateTime) : List Char :=
  pad4 d.year ++ pad2 d.month ++ pad2 d.day

/-- Embedding of `strftime('%H%M%S')`. -/
def fmtHMS (d : DateTime) : List Char :=
  pad2 d.hour ++ pad2 d.minute ++ pad2 d.second

/-- Site descriptor (`pollyxt_pipelines.locations.Location`): the fields
`scc_netcdf.py` reads. -/
structure Location where
  scc_code : String
  system_id_day : Nat
  system_id_night : Nat

/-- The fields of `pollyxt.PollyXTFile` that `scc_netcdf.py` reads.  The
raw signal array is kept as its three axis lengths plus an indexing
function on the values. -/
structure PollyXTFile where
  start_date : DateTime
  end_date : DateTime
  raw_signal_axis0 : Nat
  raw_signal_axis1 : Nat
  raw_signal_axis2 : Nat
  raw_signal : Nat → Nat → Nat → Int
  raw_signal_swap : Nat → Nat → Nat → Int
  measurement_time : Nat → Int
  measurement_shots : Nat → Nat → Int
  zenith_angle : Int

/-- Measurement ID computed by `create_scc_netcdf` (scc_netcdf.py lines
62-63): `start.strftime('%Y%m%d{scc_code}%H')` followed by the end hour
`end.strftime('%H')`. -/
def stdMeasurementId (startDate endDate : DateTime) (sccCode : String) : String :=
  ⟨fmtYMD startDate ++ sccCode.data ++ pad2 startDate.hour ++ pad2 endDate.hour⟩

/-- The parts of the standard SCC netCDF record written by
`create_scc_netcdf` that the claims refer to: the returned measurement ID
and path, the created dimensions, the global attributes, and the variable
contents. -/
structure SccNetcdf where
  measurement_id : String
  output_filename : String
  dim_points : Nat
  dim_channels : Nat
  dim_nb_of_time_scales : Nat
  dim_scan_angles : Nat
  rawdata_start_date : String
  rawdata_start_time_ut : String
  rawdata_stop_time_ut : String
  sounding_file_name : String
  noareact_configuration_id : Nat
  raw_data_start_time : Nat → Int
  raw_data_stop_time : Nat → Int
  raw_lidar_data : Nat → Nat → Nat → Int
  channel_ID : List Int
  background_low : List Int
  background_high : List Int
  molecular_calc : Int
  pressure_at_lidar_station : Int
  temperature_at_lidar_station : Int
  lr_input : List Int

/-- Embedding of `create_scc_netcdf` (scc_netcdf.py lines 44-143).  The
returned record captures both the written file contents and the returned
`(measurement_id, output_filename)` pair.  Dimensions follow lines 71-72:
`points` is the size of axis 1 and `channels` the size of axis 2 of
`pf.raw_signal`; the day/night configuration attribute follows line 92,
comparing `start.replace(hour=4, minute=0)` and
`start.replace(hour=16, minute=0)` against the start itself; the variable
fills follow lines 125-138, with `Raw_Lidar_Data` holding
`np.swapaxes(pf.raw_signal, 1, 2)`. -/
def create_scc_netcdf (pf : PollyXTFile) (output_path : String)
    (location : Location) : SccNetcdf :=
  let measurement_id := stdMeasurementId pf.start_date pf.end_date location.scc_code
  { measurement_id
    output_filename := output_path ++ "/" ++ measurement_id ++ ".nc"
    dim_points := pf.raw_signal_axis1
    dim_channels := pf.raw_signal_axis2
    dim_nb_of_time_scales := 1
    dim_scan_angles := 1
    rawdata_start_date := ⟨fmtYMD pf.start_date⟩
    rawdata_start_time_ut := ⟨fmtHMS pf.start_date⟩
    rawdata_stop_time_ut := ⟨fmtHMS pf.end_date⟩
    sounding_file_name := "rs_" ++ ⟨measurement_id.data.dropLast.dropLast⟩ ++ ".nc"
    noareact_configuration_id :=
      if (pf.start_date.replaceHM 4 0).ltb pf.start_date
          && pf.start_date.ltb (pf.start_date.replaceHM 16 0) then
        location.system_id_day
      else
        location.system_id_night
    raw_data_start_time := fun k => pf.measurement_time k - pf.measurement_time 0
    raw_data_stop_time := fun k => pf.measurement_time k - pf.measurement_time 0 + 30
    raw_lidar_data := fun t c p => pf.raw_signal t p c
    channel_ID := [493, 500, 497, 499, 494, 496, 498, 495, 501, 941, 940, 502]
    background_low := [0, 0, 0, 0, 0, 0, 0, 0, 0, 0, 0, 0]
    background_high := [249, 249, 249, 249, 249, 249, 249, 249, 249, 249, 249, 249]
    molecular_calc := 1
    pressure_at_lidar_station := 1008
    temperature_at_lidar_station := 20
    lr_input := [1, 1, 1, 1, 1, 1, 1, 1, 1, 1, 1, 1] }

/-- Observable outcome of one call to `create_scc_calibration_netcdf`:
whether the output file was created and closed, what the call returned or
raised, and the wavelength-dependent file contents.  On the invalid
wavelength path the `raise` at scc_netcdf.py line 256 happens after
`Dataset(output_filename, 'w')` at line 180 and before `nc.close()` at
line 282, so the file has been created but is neither complete nor
closed. -/
structure CalibOutcome where
  output_filename : String
  fileCreated : Bool
  fileClosed : Bool
  result : Except String (String × String)
  attr_measurement_id : Option String
  channel_ID : Option (List Int)
  total_channel : Option Nat
  cross_channel : Option Nat
  dim_channels : Nat
  dim_time : Nat
  molecular_calc : Int
  pol_calib_range_min : Int
  pol_calib_range_max : Int

/-- Embedding of `create_scc_calibration_netcdf` (scc_netcdf.py lines
146-284).  The wavelength argument is the numeric value of the
`Wavelength` enum (355 or 532); any other value reaches the `else` branch
and raises.  The Python defaults for the calibration range are 1200 and
2500; here they are explicit arguments.  The local `measurement_id`
(line 175) is never reassigned: the `Measurement_ID` attribute gets the
two-character wavelength suffix (lines 249 and 254) but the returned
identifier and the output filename (line 179) use the un-suffixed base. -/
def create_scc_calibration_netcdf (pf : PollyXTFile) (output_path : String)
    (location : Location) (wavelength : Int)
    (pol_calib_range_min pol_calib_range_max : Int) : CalibOutcome :=
  let measurement_id : String :=
    ⟨fmtYMD pf.start_date ++ location.scc_code.data ++ pad2 pf.start_date.hour⟩
  let output_filename := output_path ++ "/calibration_" ++ measurement_id ++ ".nc"
  if wavelength = 355 then
    { output_filename
      fileCreated := true
      fileClosed := true
      result := .ok (measurement_id, output_filename)
      attr_measurement_id := some (measurement_id ++ "35")
      channel_ID := some [1236, 1266, 1267, 1268]
      total_channel := some 0
      cross_channel := some 1
      dim_channels := 4
      dim_time := 3
      molecular_calc := 0
      pol_calib_range_min
      pol_calib_range_max }
  else if wavelength = 532 then
    { output_filename
      fileCreated := true
      fileClosed := true
      result := .ok (measurement_id, output_filename)
      attr_measurement_id := some (measurement_id ++ "53")
      channel_ID := some [1269, 1270, 1271, 1272]
      total_channel := some 4
      cross_channel := some 5
      dim_channels := 4
      dim_time := 3
      molecular_calc := 0
      pol_calib_range_min
      pol_calib_range_max }
  else
    { output_filename
      fileCreated := true
      fileClosed := false
      result := .error ("Unknown wavelength " ++ toString wavelength)
      attr_measurement_id := none
      channel_ID := none
      total_channel := none
      cross_channel := none
      dim_channels := 4
      dim_time := 3
      molecular_calc := 0
      pol_calib_range_min
      pol_calib_range_max }

/-- A table cell of an SCC measurement listing row: its text and, for
status cells, the `alt` attribute of the embedded image. -/
structure Cell where
  text : String
  imgAlt : String

/-- Embedding of `scc_bool` (types.py lines 20-22):
`node.img['alt'] == 'True'`. -/
def scc_bool (node : Cell) : Bool := node.imgAlt == "True"

/-- Embedding of `scc_date` (types.py lines 15-17):
`datetime.strptime(tag.text, '%Y-%m-%d %H:%M')`.  A text not of that
shape would raise in Python; here it falls through to the zero datetime. -/
def scc_date (tag : Cell) : DateTime :=
  match splitChar ' ' tag.text.data with
  | [d, t] =>
    match splitChar '-' d, splitChar ':' t with
    | [y, mo, dy], [h, mi] =>
      ⟨parseNat y, parseNat mo, parseNat dy, parseNat h, parseNat mi, 0, 0⟩
    | _, _ => ⟨0, 0, 0, 0, 0, 0, 0⟩
  | _ => ⟨0, 0, 0, 0, 0, 0, 0⟩

/-- An HTML table row of the measurement listing:
`tr.find('td', class_=cls)` is embedded as the cell map `td`, and
`tr.find('th', class_='field-station_id').a.text` as `thStationText`. -/
structure TableRow where
  td : String → Cell
  thStationText : String

/-- The `Measurement` dataclass (types.py lines 28-51); the `location`
field is filled in `__post_init__` from the module-level registry
`get_location_by_scc_code`, which is threaded here as an argument. -/
structure Measurement where
  id : String
  station_code : String
  location : Location
  date_start : DateTime
  date_end : DateTime
  date_creation : DateTime
  date_updated : DateTime
  is_uploaded : Bool
  has_hirelpp : Bool
  has_cloudmask : Bool
  has_elpp : Bool
  has_elda : Bool
  has_eldec : Bool
  has_elic : Bool
  has_elquick : Bool
  is_processing : Bool

/-- Embedding of `Measurement.from_table_row` (types.py lines 56-81).
Both `has_elda` (line 76) and `has_eldec` (line 77) read the
`field-eldec_ok` cell. -/
def Measurement.from_table_row (registry : String → Location)
    (tr : TableRow) : Measurement :=
  { id := (tr.td "field-id").text
    station_code := tr.thStationText
    location := registry tr.thStationText
    date_start := scc_date (tr.td "field-start")
    date_end := scc_date (tr.td "field-stop")
    date_creation := scc_date (tr.td "field-creation_date")
    date_updated := scc_date (tr.td "field-updated_date")
    is_uploaded := scc_bool (tr.td "field-upload_ok")
    has_hirelpp := scc_bool (tr.td "field-hirelpp_ok")
    has_cloudmask := scc_bool (tr.td "field-cloudmask_ok")
    has_elpp := scc_bool (tr.td "field-elpp_ok")
    has_elda := scc_bool (tr.td "field-eldec_ok")
    has_eldec := scc_bool (tr.td "field-eldec_ok")
    has_elic := scc_bool (tr.td "field-elic_ok")
    has_elquick := scc_bool (tr.td "field-elquick_ok")
    is_processing := scc_bool (tr.td "field-is_being_processed") }

theorem usPerHour_pos : 0 < usPerHour := by decide

theorem truncHour_le (t : Nat) : truncHour t ≤ t :=
  Nat.div_mul_le_self t usPerHour

theorem truncHour_dvd (t : Nat) : usPerHour ∣ truncHour t :=
  dvd_mul_left usPerHour (t / usPerHour)

theorem truncHour_eq_of_dvd {t : Nat} (h : usPerHour ∣ t) : truncHour t = t :=
  Nat.div_mul_cancel h

theorem truncHour_add_dvd_left {t : Nat} (i : Nat) (ht : usPerHour ∣ t) :
    truncHour (t + i) = t + truncHour i := by
  obtain ⟨k, rfl⟩ := ht
  unfold truncHour
  rw [Nat.mul_add_div usPerHour_pos, Nat.add_mul]
  ring

theorem truncHour_add_of_lt {t i : Nat} (ht : usPerHour ∣ t)
    (hi : i < usPerHour) : truncHour (t + i) = t := by
  rw [truncHour_add_dvd_left i ht]
  unfold truncHour
  rw [Nat.div_eq_of_lt hi]
  ring

theorem planWindows_false_spec (i e : Nat) (hi : 0 < i) :
    ∀ n s, e ≤ s + n * i →
      ∃ ws, planWindows false i s e n = some ws ∧
        List.Chain' (fun a b => a.2 = b.1) ws ∧
        List.Chain' (fun a b => a.1 < b.1) ws ∧
        (∀ w ∈ ws, w.1 < e ∧ w.2 = w.1 + i) ∧
        (∀ w, ws.head? = some w → w.1 = s) := by
  intro n
  induction n with
  | zero =>
    intro s hs
    have hse : ¬ s < e := by omega
    exact ⟨[], by simp [planWindows, hse], List.chain'_nil, List.chain'_nil,
      by simp, by simp⟩
  | succ n ih =>
    intro s hs
    by_cases hse : s < e
    · have hbound : e ≤ (s + i) + n * i := by
        have : s + (n + 1) * i = (s + i) + n * i := by ring
        omega
      obtain ⟨ws', hplan, hc1, hc2, hmem, hhead⟩ := ih (s + i) hbound
      refine ⟨(s, s + i) :: ws', ?_, ?_, ?_, ?_, ?_⟩
      · simp [planWindows, hse, windowStart, hplan]
      · rw [List.chain'_cons']
        exact ⟨fun b hb => (hhead b hb).symm, hc1⟩
      · rw [List.chain'_cons']
        refine ⟨fun b hb => ?_, hc2⟩
        rw [hhead b hb]
        omega
      · intro w hw
        rcases List.mem_cons.mp hw with h | h
        · subst h; exact ⟨hse, rfl⟩
        · exact hmem w h
      · intro w hw
        simp at hw
        subst hw
        rfl
    · exact ⟨[], by simp [planWindows, hse], List.chain'_nil, List.chain'_nil,
        by simp, by simp⟩

theorem planWindows_true_aligned (i e : Nat) (hi : usPerHour ∣ i) :
    ∀ fuel s, usPerHour ∣ s →
      planWindows true i s e fuel = planWindows false i s e fuel := by
  intro fuel
  induction fuel with
  | zero => intro s _; rfl
  | succ n ih =>
    intro s hs
    by_cases hse : s < e
    · simp [planWindows, hse, windowStart, truncHour_eq_of_dvd hs,
        ih (s + i) (Nat.dvd_add hs hi)]
    · simp [planWindows, hse]

/-- Claim C1 (amended): for `should_round = false` with any positive
interval, and for `should_round = true` when the interval is a multiple of
one hour, the window loop of `convert_pollyxt_file` terminates and emits
a finite sequence of windows that are contiguous (each window ends where
the next starts), strictly ordered by start, hence non-overlapping, with
every window's start strictly below `measurement_end` and every window of
length exactly `interval`. -/
theorem c1_interval_planner (shouldRound : Bool) (interval mstart mend : Nat)
    (hi : 0 < interval)
    (hr : shouldRound = true → usPerHour ∣ interval) :
    ∃ fuel ws, planWindows shouldRound interval mstart mend fuel = some ws ∧
      List.Chain' (fun a b => a.2 = b.1) ws ∧
      List.Chain' (fun a b => a.1 < b.1) ws ∧
      ∀ w ∈ ws, w.1 < mend ∧ w.2 = w.1 + interval := by
  cases shouldRound with
  | false =>
    have hbound : mend ≤ mstart + mend * interval := by
      have := Nat.le_mul_of_pos_right mend hi
      omega
    obtain ⟨ws, h1, h2, h3, h4, _⟩ :=
      planWindows_false_spec interval mend hi mend mstart hbound
    exact ⟨mend, ws, h1, h2, h3, h4⟩
  | true =>
    have hdvd := hr rfl
    by_cases hse : mstart < mend
    · have h0 : usPerHour ∣ truncHour mstart := truncHour_dvd mstart
      have hbound : mend ≤ (truncHour mstart + interval) + mend * interval := by
        have := Nat.le_mul_of_pos_right mend hi
        omega
      obtain ⟨ws', h1, h2, h3, h4, h5⟩ :=
        planWindows_false_spec interval mend hi mend
          (truncHour mstart + interval) hbound
      refine ⟨mend + 1, (truncHour mstart, truncHour mstart + interval) :: ws',
        ?_, ?_, ?_, ?_⟩
      · have halig := planWindows_true_aligned interval mend hdvd mend
          (truncHour mstart + interval) (Nat.dvd_add h0 hdvd)
        simp [planWindows, hse, windowStart, halig, h1]
      · rw [List.chain'_cons']
        exact ⟨fun b hb => (h5 b hb).symm, h2⟩
      · rw [List.chain'_cons']
        refine ⟨fun b hb => ?_, h3⟩
        rw [h5 b hb]
        omega
      · intro w hw
        rcases List.mem_cons.mp hw with h | h
        · subst h
          exact ⟨lt_of_le_of_lt (truncHour_le mstart) hse, rfl⟩
        · exact h4 w h
    · exact ⟨0, [], by simp [planWindows, hse], List.chain'_nil,
        List.chain'_nil, by simp⟩

/-- Claim C1 witness: a concrete instantiation of the amended planner
theorem at a one-hour interval with rounding enabled. -/
theorem c1_interval_planner_witness :
    ∃ fuel ws, planWindows true usPerHour 1800000000 7200000000 fuel = some ws ∧
      List.Chain' (fun a b => a.2 = b.1) ws ∧
      List.Chain' (fun a b => a.1 < b.1) ws ∧
      ∀ w ∈ ws, w.1 < 7200000000 ∧ w.2 = w.1 + usPerHour :=
  c1_interval_planner true usPerHour 1800000000 7200000000 (by decide)
    (fun _ => Dvd.intro 1 (by decide))

/-- Claim C1 counterexample: with `should_round = true` the claim fails as
stated.  First, with a 30-minute interval and a measurement starting at
01:02, the cursor reaches 01:30 and then never advances (each iteration
truncates it back to 01:00 and adds 30 minutes again), so the loop does
not terminate and the cursor does not strictly advance.  Second, with a
90-minute interval the loop terminates but the emitted windows overlap
and are not contiguous: from 01:02 to 03:20 it emits
[01:00, 02:30) followed by [02:00, 03:30). -/
theorem c1_counterexample :
    nextCursor true (30 * usPerMinute) (62 * usPerMinute) = 90 * usPerMinute ∧
    nextCursor true (30 * usPerMinute) (90 * usPerMinute) = 90 * usPerMinute ∧
    90 * usPerMinute < 120 * usPerMinute ∧
    planWindows true (90 * usPerMinute) (62 * usPerMinute) (200 * usPerMinute) 3 =
      some [(60 * usPerMinute, 150 * usPerMinute),
            (120 * usPerMinute, 210 * usPerMinute)] ∧
    120 * usPerMinute < 150 * usPerMinute := by
  refine ⟨by decide, by decide, by decide, ?_, by decide⟩
  decide

theorem planWindows_stall {shouldRound : Bool} {i c e : Nat}
    (h : windowStart shouldRound c + i = c) (hce : c < e) :
    ∀ fuel, planWindows shouldRound i c e fuel = none := by
  intro fuel
  induction fuel with
  | zero => simp [planWindows, hce]
  | succ n ih => simp [planWindows, hce, h, ih]

theorem windowStart_true (c : Nat) : windowStart true c = truncHour c := rfl

theorem windowStart_false (c : Nat) : windowStart false c = c := rfl

theorem planWindows_head {shouldRound : Bool} {i c e fuel : Nat}
    {b : Nat × Nat} {tl : List (Nat × Nat)}
    (h : planWindows shouldRound i c e fuel = some (b :: tl)) :
    b = (windowStart shouldRound c, windowStart shouldRound c + i) ∧ c < e := by
  cases fuel with
  | zero =>
    by_cases hce : c < e
    · simp [planWindows, hce] at h
    · simp [planWindows, hce] at h
  | succ n =>
    by_cases hce : c < e
    · simp only [planWindows, if_pos hce, Option.map_eq_some'] at h
      obtain ⟨ws', hws', hcons⟩ := h
      injection hcons with h1 h2
      exact ⟨h1.symm, hce⟩
    · simp only [planWindows, if_neg hce, Option.some.injEq] at h
      exact absurd h (by simp)

theorem planWindows_chain_lt {shouldRound : Bool} {i e : Nat} (hi : 0 < i) :
    ∀ fuel c ws, planWindows shouldRound i c e fuel = some ws →
      List.Chain' (fun a b => a.1 < b.1) ws := by
  intro fuel
  induction fuel with
  | zero =>
    intro c ws h
    by_cases hce : c < e
    · simp [planWindows, hce] at h
    · simp [planWindows, hce] at h
      subst h
      exact List.chain'_nil
  | succ n ih =>
    intro c ws h
    by_cases hce : c < e
    · simp [planWindows, hce] at h
      obtain ⟨ws', hws', rfl⟩ := h
      rw [List.chain'_cons']
      refine ⟨?_, ih _ _ hws'⟩
      intro b hb
      obtain ⟨tl, rfl⟩ : ∃ tl, ws' = b :: tl := by
        cases ws' with
        | nil => simp at hb
        | cons x tl => simp at hb; exact ⟨tl, by rw [hb]⟩
      obtain ⟨hb1, hc1e⟩ := planWindows_head hws'
      subst hb1
      cases shouldRound with
      | false =>
        dsimp only
        simp only [windowStart_false]
        omega
      | true =>
        dsimp only
        simp only [windowStart_true]
        by_cases hiH : usPerHour ≤ i
        · rw [truncHour_add_dvd_left i (truncHour_dvd c)]
          have h2 : usPerHour ≤ truncHour i := by
            have h1 : 1 ≤ i / usPerHour := (Nat.one_le_div_iff usPerHour_pos).mpr hiH
            calc usPerHour = 1 * usPerHour := (Nat.one_mul _).symm
              _ ≤ i / usPerHour * usPerHour := Nat.mul_le_mul_right _ h1
          have h3 := usPerHour_pos
          omega
        · exfalso
          have hstall : windowStart true (windowStart true c + i) + i
              = windowStart true c + i := by
            simp only [windowStart_true]
            rw [truncHour_add_of_lt (truncHour_dvd c) (lt_of_not_ge hiH)]
          have hnone := planWindows_stall hstall hc1e n
          rw [hnone] at hws'
          exact Option.noConfusion hws'
    · simp [planWindows, hce] at h
      subst h
      exact List.chain'_nil

theorem calibration_to_datetime_0231 (base : Nat) :
    calibration_to_datetime base "02:31-02:41" =
      (base / usPerDay * usPerDay + base % usPerSecond + 151 * usPerMinute,
       base / usPerDay * usPerDay + base % usPerSecond + 161 * usPerMinute) := by
  rw [show calibration_to_datetime base "02:31-02:41" =
      (base / usPerDay * usPerDay + base % usPerSecond
         + 2 * usPerHour + 31 * usPerMinute,
       base / usPerDay * usPerDay + base % usPerSecond
         + 2 * usPerHour + 41 * usPerMinute) from rfl,
    Prod.mk.injEq]
  have hH : usPerHour = 60 * usPerMinute := rfl
  generalize base / usPerDay * usPerDay + base % usPerSecond = A
  omega

theorem calibration_to_datetime_1731 (base : Nat) :
    calibration_to_datetime base "17:31-17:41" =
      (base / usPerDay * usPerDay + base % usPerSecond + 1051 * usPerMinute,
       base / usPerDay * usPerDay + base % usPerSecond + 1061 * usPerMinute) := by
  rw [show calibration_to_datetime base "17:31-17:41" =
      (base / usPerDay * usPerDay + base % usPerSecond
         + 17 * usPerHour + 31 * usPerMinute,
       base / usPerDay * usPerDay + base % usPerSecond
         + 17 * usPerHour + 41 * usPerMinute) from rfl,
    Prod.mk.injEq]
  have hH : usPerHour = 60 * usPerMinute := rfl
  generalize base / usPerDay * usPerDay + base % usPerSecond = A
  omega

theorem calibration_to_datetime_2131 (base : Nat) :
    calibration_to_datetime base "21:31-21:41" =
      (base / usPerDay * usPerDay + base % usPerSecond + 1291 * usPerMinute,
       base / usPerDay * usPerDay + base % usPerSecond + 1301 * usPerMinute) := by
  rw [show calibration_to_datetime base "21:31-21:41" =
      (base / usPerDay * usPerDay + base % usPerSecond
         + 21 * usPerHour + 31 * usPerMinute,
       base / usPerDay * usPerDay + base % usPerSecond
         + 21 * usPerHour + 41 * usPerMinute) from rfl,
    Prod.mk.injEq]
  have hH : usPerHour = 60 * usPerMinute := rfl
  generalize base / usPerDay * usPerDay + base % usPerSecond = A
  omega

theorem calibEmits_wavelength (mstart mend : Nat) :
    ∀ x ∈ calibEmits mstart mend, ∃ w, x = Emit.cal w 532 := by
  intro x hx
  obtain ⟨p, hmem, hp⟩ := List.mem_filterMap.mp hx
  dsimp only at hp
  split at hp
  · exact ⟨_, (Option.some_inj.mp hp).symm⟩
  · exact Option.noConfusion hp

theorem calibEmits_chain (mstart mend : Nat) :
    List.Chain' (fun a b => emitStart a < emitStart b) (calibEmits mstart mend) := by
  have hm : 0 < usPerMinute := by decide
  simp only [calibEmits, CALIBRATION_PERIODS, List.filterMap_cons,
    List.filterMap_nil, calibration_to_datetime_0231,
    calibration_to_datetime_1731, calibration_to_datetime_2131]
  generalize mstart / usPerDay * usPerDay + mstart % usPerSecond = A
  split_ifs <;>
    simp_all [emitStart, List.chain'_cons, List.chain'_singleton]

/-- Claim C8: whenever the window loop terminates, the generator
`convert_pollyxt_file` yields exactly the standard-window records, in
strictly increasing window-start order, followed (only when calibration
is enabled) by the calibration records; every calibration record is
built with wavelength 532 — the 355 nm path is never invoked by the
driver — and the calibration records appear in the fixed period order
02:31, 17:31, 21:31, which is strictly increasing in start time. -/
theorem c8_driver_order (shouldRound calibration : Bool)
    (interval mstart mend fuel : Nat) (ws : List (Nat × Nat))
    (hi : 0 < interval)
    (hplan : planWindows shouldRound interval mstart mend fuel = some ws) :
    convert_pollyxt_file shouldRound calibration interval mstart mend fuel =
      some (ws.map Emit.std ++
        if calibration then calibEmits mstart mend else []) ∧
    List.Chain' (fun a b => emitStart a < emitStart b) (ws.map Emit.std) ∧
    (∀ x ∈ calibEmits mstart mend, ∃ w, x = Emit.cal w 532) ∧
    List.Chain' (fun a b => emitStart a < emitStart b)
      (calibEmits mstart mend) := by
  refine ⟨by simp [convert_pollyxt_file, hplan], ?_,
    calibEmits_wavelength mstart mend, calibEmits_chain mstart mend⟩
  have hchain := planWindows_chain_lt hi fuel mstart ws hplan
  rw [List.chain'_map]
  exact hchain

/-- Claim C8 witness: a concrete two-window run with calibration enabled
(the span is too short for any calibration period, so the calibration
part is empty but the structure theorem applies). -/
theorem c8_driver_order_witness :
    convert_pollyxt_file false true usPerHour 0 7200000000 3 =
      some ([(0, usPerHour), (usPerHour, 7200000000)].map Emit.std ++
        if true then calibEmits 0 7200000000 else []) ∧
    List.Chain' (fun a b => emitStart a < emitStart b)
      ([(0, usPerHour), (usPerHour, 7200000000)].map Emit.std) ∧
    (∀ x ∈ calibEmits 0 7200000000, ∃ w, x = Emit.cal w 532) ∧
    List.Chain' (fun a b => emitStart a < emitStart b)
      (calibEmits 0 7200000000) :=
  c8_driver_order false true usPerHour 0 7200000000 3
    [(0, usPerHour), (usPerHour, 7200000000)] (by decide) (by decide)

/-- Claim C6 (amended): each of the three daily calibration periods is
anchored at hour 0, minute 0, second 0 of `measurement_start`'s calendar
day, but retains `measurement_start`'s microsecond component, because
`base.replace(hour=0, minute=0, second=0)` does not reset microseconds;
with that anchor (02:31 becoming an offset of 151 minutes, and so on), a
period's calibration record is produced by the driver if and only if the
period's start is strictly after `measurement_start` and its end strictly
before `measurement_end` — a period touching a boundary exactly, or
partially overlapping the span, is silently dropped. -/
theorem c6_calibration_inclusion (mstart mend : Nat) :
    (calibration_to_datetime mstart "02:31-02:41" =
      (mstart / usPerDay * usPerDay + mstart % usPerSecond + 151 * usPerMinute,
       mstart / usPerDay * usPerDay + mstart % usPerSecond + 161 * usPerMinute)) ∧
    (calibration_to_datetime mstart "17:31-17:41" =
      (mstart / usPerDay * usPerDay + mstart % usPerSecond + 1051 * usPerMinute,
       mstart / usPerDay * usPerDay + mstart % usPerSecond + 1061 * usPerMinute)) ∧
    (calibration_to_datetime mstart "21:31-21:41" =
      (mstart / usPerDay * usPerDay + mstart % usPerSecond + 1291 * usPerMinute,
       mstart / usPerDay * usPerDay + mstart % usPerSecond + 1301 * usPerMinute)) ∧
    (Emit.cal (calibration_to_datetime mstart "02:31-02:41") 532 ∈
        calibEmits mstart mend ↔
      mstart < (calibration_to_datetime mstart "02:31-02:41").1 ∧
      (calibration_to_datetime mstart "02:31-02:41").2 < mend) ∧
    (Emit.cal (calibration_to_datetime mstart "17:31-17:41") 532 ∈
        calibEmits mstart mend ↔
      mstart < (calibration_to_datetime mstart "17:31-17:41").1 ∧
      (calibration_to_datetime mstart "17:31-17:41").2 < mend) ∧
    (Emit.cal (calibration_to_datetime mstart "21:31-21:41") 532 ∈
        calibEmits mstart mend ↔
      mstart < (calibration_to_datetime mstart "21:31-21:41").1 ∧
      (calibration_to_datetime mstart "21:31-21:41").2 < mend) := by
  have hm : 0 < usPerMinute := by decide
  have e1 := calibration_to_datetime_0231 mstart
  have e2 := calibration_to_datetime_1731 mstart
  have e3 := calibration_to_datetime_2131 mstart
  refine ⟨e1, e2, e3, ?_, ?_, ?_⟩ <;>
    (simp only [calibEmits, CALIBRATION_PERIODS, List.filterMap_cons,
       List.filterMap_nil, e1, e2, e3]
     generalize mstart / usPerDay * usPerDay + mstart % usPerSecond = A
     split_ifs <;>
       simp_all [Emit.cal.injEq, Prod.mk.injEq] <;> omega)

/-- Claim C6 counterexample: with `measurement_start` one microsecond past
midnight, the first calibration period starts at 02:31:00.000001 of that
day, not at the 02:31:00.000000 instant that an anchor of exactly
00:00:00.000000 would give. -/
theorem c6_counterexample :
    (calibration_to_datetime 1 "02:31-02:41").1 = 151 * usPerMinute + 1 ∧
    (calibration_to_datetime 1 "02:31-02:41").1 ≠ 151 * usPerMinute := by
  exact ⟨by decide, by decide⟩

/-- A concrete site descriptor used by the concrete evaluations. -/
def locEx : Location :=
  { scc_code := "ny", system_id_day := 437, system_id_night := 438 }

/-- A concrete view: one hour starting 2021-01-01 00:00:00, raw signal
axis sizes 2 × 5 × 12. -/
def pfEx : PollyXTFile :=
  { start_date := ⟨2021, 1, 1, 0, 0, 0, 0⟩
    end_date := ⟨2021, 1, 1, 1, 0, 0, 0⟩
    raw_signal_axis0 := 2
    raw_signal_axis1 := 5
    raw_signal_axis2 := 12
    raw_signal := fun _ _ _ => 0
    raw_signal_swap := fun _ _ _ => 0
    measurement_time := fun _ => 0
    measurement_shots := fun _ _ => 0
    zenith_angle := 5 }

/-- The same view shifted to start 2021-01-01 00:30:00. -/
def pfEx0030 : PollyXTFile :=
  { pfEx with
    start_date := ⟨2021, 1, 1, 0, 30, 0, 0⟩
    end_date := ⟨2021, 1, 1, 1, 30, 0, 0⟩ }

/-- The same view shifted to start 2021-01-01 04:00:30. -/
def pfEx0430 : PollyXTFile :=
  { pfEx with
    start_date := ⟨2021, 1, 1, 4, 0, 30, 0⟩
    end_date := ⟨2021, 1, 1, 5, 0, 30, 0⟩ }

/-- Claim C2 (amended): `create_scc_netcdf` sets the `points` dimension to
the size of axis 1 of the raw signal and the `channels` dimension to the
size of axis 2 — the opposite of the claim's labelling, and consistent
with the raw signal array being laid out [profiles, range-bins,
channels] (under which `points` is indeed the range-bin count and
`channels` the channel count). -/
theorem c2_dimensions (pf : PollyXTFile) (o : String) (loc : Location) :
    (create_scc_netcdf pf o loc).dim_points = pf.raw_signal_axis1 ∧
    (create_scc_netcdf pf o loc).dim_channels = pf.raw_signal_axis2 :=
  ⟨rfl, rfl⟩

/-- Claim C2 counterexample: for a raw signal with axis-1 size 5 and
axis-2 size 12, the record's `points` dimension is 5 and its `channels`
dimension is 12; under the claim's premise that the raw signal is
[profiles, channels, range-bins] (channel count 5, range-bin count 12),
the claim would require `points` = 12 and `channels` = 5. -/
theorem c2_counterexample :
    (create_scc_netcdf pfEx "out" locEx).dim_points = 5 ∧
    (create_scc_netcdf pfEx "out" locEx).dim_channels = 12 ∧
    ¬ ((create_scc_netcdf pfEx "out" locEx).dim_points = 12 ∧
       (create_scc_netcdf pfEx "out" locEx).dim_channels = 5) := by
  exact ⟨rfl, rfl, by decide⟩

/-- Claim C9: the `channel_ID` variable of every Standard Record produced
by `create_scc_netcdf` is exactly the fixed 12-entry table, for every
view, path and location — in particular independent of the input signal
values. -/
theorem c9_channel_id (pf1 pf2 : PollyXTFile) (o1 o2 : String)
    (l1 l2 : Location) :
    (create_scc_netcdf pf1 o1 l1).channel_ID =
      [493, 500, 497, 499, 494, 496, 498, 495, 501, 941, 940, 502] ∧
    (create_scc_netcdf pf1 o1 l1).channel_ID =
      (create_scc_netcdf pf2 o2 l2).channel_ID :=
  ⟨rfl, rfl⟩

theorem ltb_replaceHM_left (d : DateTime) (h m : Nat) :
    ((d.replaceHM h m).ltb d = true) ↔
      (h < d.hour ∨ (h = d.hour ∧ m < d.minute)) := by
  rcases d with ⟨y, mo, dy, hh, mi, s, us⟩
  simp only [DateTime.replaceHM, DateTime.ltb]
  split_ifs <;> simp_all

theorem ltb_replaceHM_right (d : DateTime) (h m : Nat) :
    (d.ltb (d.replaceHM h m) = true) ↔
      (d.hour < h ∨ (d.hour = h ∧ d.minute < m)) := by
  rcases d with ⟨y, mo, dy, hh, mi, s, us⟩
  simp only [DateTime.replaceHM, DateTime.ltb]
  split_ifs <;> simp_all

/-- Claim C4 (amended): the configuration-ID attribute is
`system_id_day` if and only if the start's (hour, minute) pair lies
strictly between (04, 00) and (16, 00) — seconds and microseconds play
no role, because `replace(hour=..., minute=0)` keeps them, so a start in
the partial minute 04:00 (such as 04:00:30) compares equal to the lower
bound and gets `system_id_night`. -/
theorem c4_day_night_rule (pf : PollyXTFile) (o : String) (loc : Location) :
    (create_scc_netcdf pf o loc).noareact_configuration_id =
      if (4 < pf.start_date.hour ∨
            (pf.start_date.hour = 4 ∧ 0 < pf.start_date.minute)) ∧
          pf.start_date.hour < 16 then
        loc.system_id_day
      else
        loc.system_id_night := by
  have hL := ltb_replaceHM_left pf.start_date 4 0
  have hR := ltb_replaceHM_right pf.start_date 16 0
  show (if (pf.start_date.replaceHM 4 0).ltb pf.start_date
        && pf.start_date.ltb (pf.start_date.replaceHM 16 0) then
      loc.system_id_day else loc.system_id_night) = _
  cases hb1 : (pf.start_date.replaceHM 4 0).ltb pf.start_date <;>
    cases hb2 : pf.start_date.ltb (pf.start_date.replaceHM 16 0) <;>
      simp_all <;> split_ifs <;> first | rfl | omega

/-- Claim C4 counterexample: a window starting 2021-01-01 04:00:30 —
strictly between 04:00:00 and 16:00:00 of its day, so the claim requires
`day_config_id` — receives `night_config_id`. -/
theorem c4_counterexample :
    (create_scc_netcdf pfEx0430 "out" locEx).noareact_configuration_id =
      locEx.system_id_night ∧
    locEx.system_id_night ≠ locEx.system_id_day := by
  exact ⟨by decide, by decide⟩

def digitVal (c : Char) : Nat := c.toNat - 48

theorem digitVal_digitChar {n : Nat} (h : n < 10) :
    digitVal (digitChar n) = n := by
  interval_cases n <;> rfl

theorem digitChar_inj {a b : Nat} (ha : a < 10) (hb : b < 10)
    (h : digitChar a = digitChar b) : a = b := by
  calc a = digitVal (digitChar a) := (digitVal_digitChar ha).symm
    _ = digitVal (digitChar b) := by rw [h]
    _ = b := digitVal_digitChar hb

theorem pad2_inj {a b : Nat} (ha : a < 100) (hb : b < 100)
    (h : pad2 a = pad2 b) : a = b := by
  simp only [pad2, List.cons.injEq, and_true] at h
  obtain ⟨h1, h2⟩ := h
  have e1 := digitChar_inj (Nat.mod_lt _ (by norm_num))
    (Nat.mod_lt _ (by norm_num)) h1
  have e2 := digitChar_inj (Nat.mod_lt _ (by norm_num))
    (Nat.mod_lt _ (by norm_num)) h2
  omega

theorem pad4_inj {a b : Nat} (ha : a < 10000) (hb : b < 10000)
    (h : pad4 a = pad4 b) : a = b := by
  simp only [pad4, List.cons.injEq, and_true] at h
  obtain ⟨h1, h2, h3, h4⟩ := h
  have e1 := digitChar_inj (Nat.mod_lt _ (by norm_num))
    (Nat.mod_lt _ (by norm_num)) h1
  have e2 := digitChar_inj (Nat.mod_lt _ (by norm_num))
    (Nat.mod_lt _ (by norm_num)) h2
  have e3 := digitChar_inj (Nat.mod_lt _ (by norm_num))
    (Nat.mod_lt _ (by norm_num)) h3
  have e4 := digitChar_inj (Nat.mod_lt _ (by norm_num))
    (Nat.mod_lt _ (by norm_num)) h4
  omega

theorem pad2_length (n : Nat) : (pad2 n).length = 2 := rfl

theorem fmtYMD_length (d : DateTime) : (fmtYMD d).length = 8 := by
  simp [fmtYMD, pad4, pad2]

theorem stdMeasurementId_inj {s1 e1 s2 e2 : DateTime} {c1 c2 : String}
    (hy1 : s1.year < 10000) (hy2 : s2.year < 10000)
    (hmo1 : s1.month < 100) (hmo2 : s2.month < 100)
    (hd1 : s1.day < 100) (hd2 : s2.day < 100)
    (hh1 : s1.hour < 100) (hh2 : s2.hour < 100)
    (he1 : e1.hour < 100) (he2 : e2.hour < 100)
    (heq : stdMeasurementId s1 e1 c1 = stdMeasurementId s2 e2 c2) :
    s1.year = s2.year ∧ s1.month = s2.month ∧ s1.day = s2.day ∧
    c1 = c2 ∧ s1.hour = s2.hour ∧ e1.hour = e2.hour := by
  have hl : fmtYMD s1 ++ c1.data ++ pad2 s1.hour ++ pad2 e1.hour
      = fmtYMD s2 ++ c2.data ++ pad2 s2.hour ++ pad2 e2.hour :=
    congrArg String.data heq
  obtain ⟨hl, hQ⟩ := List.append_inj' hl (by rw [pad2_length, pad2_length])
  obtain ⟨hl, hP⟩ := List.append_inj' hl (by rw [pad2_length, pad2_length])
  obtain ⟨hA, hC⟩ := List.append_inj hl (by rw [fmtYMD_length, fmtYMD_length])
  unfold fmtYMD at hA
  obtain ⟨hA, hD⟩ := List.append_inj' hA (by rw [pad2_length, pad2_length])
  obtain ⟨hY, hMo⟩ := List.append_inj' hA (by rw [pad2_length, pad2_length])
  refine ⟨pad4_inj hy1 hy2 hY, pad2_inj hmo1 hmo2 hMo, pad2_inj hd1 hd2 hD,
    ?_, pad2_inj hh1 hh2 hP, pad2_inj he1 he2 hQ⟩
  cases c1
  cases c2
  exact congrArg String.mk hC

/-- Claim C3 (amended): the measurement identifier of `create_scc_netcdf`
is deterministic (it is a pure function of the inputs) and is injective
on the quadruple (start calendar date, start hour, site code, end hour)
for in-range datetime components: two records receive the same
identifier exactly when they agree on those components.  It is not
injective on full (start, end, site) triples, since minutes, seconds and
microseconds are not encoded. -/
theorem c3_identifier_injective (pf1 pf2 : PollyXTFile) (o1 o2 : String)
    (l1 l2 : Location)
    (hy1 : pf1.start_date.year < 10000) (hy2 : pf2.start_date.year < 10000)
    (hmo1 : pf1.start_date.month < 100) (hmo2 : pf2.start_date.month < 100)
    (hd1 : pf1.start_date.day < 100) (hd2 : pf2.start_date.day < 100)
    (hh1 : pf1.start_date.hour < 100) (hh2 : pf2.start_date.hour < 100)
    (he1 : pf1.end_date.hour < 100) (he2 : pf2.end_date.hour < 100)
    (heq : (create_scc_netcdf pf1 o1 l1).measurement_id
      = (create_scc_netcdf pf2 o2 l2).measurement_id) :
    pf1.start_date.year = pf2.start_date.year ∧
    pf1.start_date.month = pf2.start_date.month ∧
    pf1.start_date.day = pf2.start_date.day ∧
    l1.scc_code = l2.scc_code ∧
    pf1.start_date.hour = pf2.start_date.hour ∧
    pf1.end_date.hour = pf2.end_date.hour := by
  have heq' : stdMeasurementId pf1.start_date pf1.end_date l1.scc_code
      = stdMeasurementId pf2.start_date pf2.end_date l2.scc_code := heq
  exact stdMeasurementId_inj hy1 hy2 hmo1 hmo2 hd1 hd2 hh1 hh2 he1 he2 heq'

/-- Claim C3 witness: the injectivity theorem applied to two equal
concrete inputs. -/
theorem c3_identifier_injective_witness :
    pfEx.start_date.year = pfEx.start_date.year ∧
    pfEx.start_date.month = pfEx.start_date.month ∧
    pfEx.start_date.day = pfEx.start_date.day ∧
    locEx.scc_code = locEx.scc_code ∧
    pfEx.start_date.hour = pfEx.start_date.hour ∧
    pfEx.end_date.hour = pfEx.end_date.hour :=
  c3_identifier_injective pfEx pfEx "out" "out" locEx locEx
    (by decide) (by decide) (by decide) (by decide) (by decide) (by decide)
    (by decide) (by decide) (by decide) (by decide) rfl

/-- Claim C3 counterexample: the spans 00:00–01:00 and 00:30–01:30 of
2021-01-01 are distinct (start, end, site) triples but produce the same
identifier `20210101ny0001`, because minutes are not encoded. -/
theorem c3_counterexample :
    (create_scc_netcdf pfEx "out" locEx).measurement_id =
      (create_scc_netcdf pfEx0030 "out" locEx).measurement_id ∧
    pfEx.start_date ≠ pfEx0030.start_date ∧
    pfEx.end_date ≠ pfEx0030.end_date := by
  exact ⟨by decide, by decide, by decide⟩

/-- Claim C5 (amended): for wavelength 355 or 532,
`create_scc_calibration_netcdf` returns the base identifier
`YYYYMMDD<site_code>HH` *without* any wavelength suffix (the local
`measurement_id` is never reassigned); the two-character suffix "35" or
"53" is appended only to the `Measurement_ID` attribute stored inside
the file; and the output filename is `calibration_` plus the un-suffixed
base identifier. -/
theorem c5_calibration_identifier (pf : PollyXTFile) (o : String)
    (loc : Location) (w : Int) (hw : w = 355 ∨ w = 532) :
    (create_scc_calibration_netcdf pf o loc w 1200 2500).result =
      .ok (String.mk (fmtYMD pf.start_date ++ loc.scc_code.data
            ++ pad2 pf.start_date.hour),
        (create_scc_calibration_netcdf pf o loc w 1200 2500).output_filename) ∧
    (create_scc_calibration_netcdf pf o loc w 1200 2500).output_filename =
      o ++ "/calibration_"
        ++ String.mk (fmtYMD pf.start_date ++ loc.scc_code.data
            ++ pad2 pf.start_date.hour) ++ ".nc" ∧
    (create_scc_calibration_netcdf pf o loc w 1200 2500).attr_measurement_id =
      some (String.mk (fmtYMD pf.start_date ++ loc.scc_code.data
            ++ pad2 pf.start_date.hour)
        ++ (if w = 355 then "35" else "53")) := by
  rcases hw with rfl | rfl <;>
    refine ⟨rfl, rfl, ?_⟩ <;> simp [create_scc_calibration_netcdf]

/-- Claim C5 witness: concrete evaluation at wavelength 532. -/
theorem c5_calibration_identifier_witness :
    (create_scc_calibration_netcdf pfEx "out" locEx 532 1200 2500).result =
      .ok (String.mk (fmtYMD pfEx.start_date ++ locEx.scc_code.data
            ++ pad2 pfEx.start_date.hour),
        (create_scc_calibration_netcdf pfEx "out" locEx 532 1200 2500).output_filename) ∧
    (create_scc_calibration_netcdf pfEx "out" locEx 532 1200 2500).output_filename =
      "out" ++ "/calibration_"
        ++ String.mk (fmtYMD pfEx.start_date ++ locEx.scc_code.data
            ++ pad2 pfEx.start_date.hour) ++ ".nc" ∧
    (create_scc_calibration_netcdf pfEx "out" locEx 532 1200 2500).attr_measurement_id =
      some (String.mk (fmtYMD pfEx.start_date ++ locEx.scc_code.data
            ++ pad2 pfEx.start_date.hour)
        ++ (if (532 : Int) = 355 then "35" else "53")) :=
  c5_calibration_identifier pfEx "out" locEx 532 (Or.inr rfl)

/-- Claim C5 counterexample: at 532 nm the returned identifier is
`20210101ny00`, not the suffixed `20210101ny0053` the claim asserts; the
suffixed form appears only in the `Measurement_ID` attribute. -/
theorem c5_counterexample :
    (create_scc_calibration_netcdf pfEx "out" locEx 532 1200 2500).result =
      .ok ("20210101ny00", "out/calibration_20210101ny00.nc") ∧
    (create_scc_calibration_netcdf pfEx "out" locEx 532 1200 2500).attr_measurement_id =
      some "20210101ny0053" ∧
    ("20210101ny00" : String) ≠ "20210101ny0053" := by
  exact ⟨rfl, rfl, by decide⟩

/-- Claim C7: for any wavelength outside {355, 532} the builder raises
(`ValueError`, the spec's `InvalidWavelengthError`), but it does so only
at the wavelength branch, after `Dataset(output_filename, 'w')` has
already created the output file and before `nc.close()`: the partially
written `calibration_<id>.nc` file is left on disk and the handle is
never released, contradicting the claim's clean-failure requirement. -/
theorem c7_invalid_wavelength (pf : PollyXTFile) (o : String)
    (loc : Location) (w : Int) (h355 : w ≠ 355) (h532 : w ≠ 532) :
    (create_scc_calibration_netcdf pf o loc w 1200 2500).result =
      .error ("Unknown wavelength " ++ toString w) ∧
    (create_scc_calibration_netcdf pf o loc w 1200 2500).fileCreated = true ∧
    (create_scc_calibration_netcdf pf o loc w 1200 2500).fileClosed = false := by
  refine ⟨?_, ?_, ?_⟩ <;> simp [create_scc_calibration_netcdf, h355, h532]

/-- Claim C7 witness: concrete evaluation at the invalid wavelength 400. -/
theorem c7_invalid_wavelength_witness :
    (create_scc_calibration_netcdf pfEx "out" locEx 400 1200 2500).result =
      .error ("Unknown wavelength " ++ toString (400 : Int)) ∧
    (create_scc_calibration_netcdf pfEx "out" locEx 400 1200 2500).fileCreated = true ∧
    (create_scc_calibration_netcdf pfEx "out" locEx 400 1200 2500).fileClosed = false :=
  c7_invalid_wavelength pfEx "out" locEx 400 (by decide) (by decide)

/-- Claim C10: every parsed `Measurement` has `has_elda` equal to
`has_eldec`, because both are read from the `field-eldec_ok` cell; the
`field-elda_ok` cell is never consulted, so replacing it by any cell
whatsoever leaves the parsed `Measurement` unchanged. -/
theorem c10_elda_eldec (registry : String → Location) (tr : TableRow)
    (c : Cell) :
    (Measurement.from_table_row registry tr).has_elda =
      (Measurement.from_table_row registry tr).has_eldec ∧
    Measurement.from_table_row registry
        { tr with
          td := fun cls => if cls = "field-elda_ok" then c else tr.td cls } =
      Measurement.from_table_row registry tr := by
  exact ⟨rfl, rfl⟩
